import Mathlib

/-
  Shallow embedding of `button_event_handler.cpp` from the hardware-driver
  repository (namespace hardware_driver::button_driver).

  The handler's mutable members become a `HandlerState`; the injected
  callbacks become a `HandlerConfig` (the controller-switch callback is an
  optional Bool-returning function, mirroring `if (controller_callback_)`;
  the replay-complete callback has no return value, so only its presence is
  recorded and its invocations are collected in an `Effects` trace).  The
  wall clock read by `generate_trajectory_name` is passed in as an explicit
  `time_t : Nat` parameter.  The diagnostic log callback only receives
  strings and touches no state, so it is not modelled.
-/

namespace HardwareDriver

inductive ButtonStatus
  | NONE
  | ENTRY_TEACH
  | EXIT_TEACH
  | TEACH_REPEAT
deriving DecidableEq, Repr

inductive ControllerCommand
  | START_RECORD
  | STOP_RECORD
  | START_REPLAY
deriving DecidableEq, Repr

structure HandlerState where
  is_teaching : Bool
  is_replaying : Bool
  current_trajectory_name : String
  last_interface : String
deriving DecidableEq, Repr

structure HandlerConfig where
  controller_callback : Option (ControllerCommand → String → Bool)
  has_replay_complete_callback : Bool

/-- Trace of outbound invocations made while handling one entry point:
    controller-switch requests `(command, trajectory_id)` in order, and
    replay-complete signals (the interface passed to each). -/
structure Effects where
  controller_calls : List (ControllerCommand × String)
  replay_complete_calls : List String
deriving DecidableEq, Repr

def Effects.nil : Effects := ⟨[], []⟩

/-- Construction-time state of `ButtonEventHandler`, from the member
    initializers in `button_event_handler.hpp` (under
    `src/include/hardware_driver/driver/button_driver_interface.hpp`): the
    atomic flags `is_teaching_` and `is_replaying_` are initialized to false,
    and `current_trajectory_name_` / `last_interface_` are default-constructed
    `std::string`s, i.e. empty (the defaulted constructor adds nothing). -/
def initState : HandlerState :=
  { is_teaching := false
    is_replaying := false
    current_trajectory_name := ""
    last_interface := "" }

/-- `ButtonEventHandler::generate_trajectory_name`: "button_traj_" followed by
    the wall-clock `time_t` value. -/
def generate_trajectory_name (time_t : Nat) : String :=
  "button_traj_" ++ toString time_t

/-- `ButtonEventHandler::handle_entry_teach`. -/
def handle_entry_teach (cfg : HandlerConfig) (time_t : Nat) (s : HandlerState) :
    HandlerState × Effects :=
  if s.is_teaching then (s, Effects.nil)
  else if s.is_replaying then (s, Effects.nil)
  else
    let name := generate_trajectory_name time_t
    let s1 := { s with current_trajectory_name := name }
    match cfg.controller_callback with
    | some cb =>
        if cb ControllerCommand.START_RECORD name then
          ({ s1 with is_teaching := true }, ⟨[(ControllerCommand.START_RECORD, name)], []⟩)
        else
          (s1, ⟨[(ControllerCommand.START_RECORD, name)], []⟩)
    | none => (s1, Effects.nil)

/-- `ButtonEventHandler::handle_exit_teach`. -/
def handle_exit_teach (cfg : HandlerConfig) (s : HandlerState) :
    HandlerState × Effects :=
  if !s.is_teaching then (s, Effects.nil)
  else
    match cfg.controller_callback with
    | some cb =>
        if cb ControllerCommand.STOP_RECORD s.current_trajectory_name then
          ({ s with is_teaching := false },
            ⟨[(ControllerCommand.STOP_RECORD, s.current_trajectory_name)], []⟩)
        else
          (s, ⟨[(ControllerCommand.STOP_RECORD, s.current_trajectory_name)], []⟩)
    | none => (s, Effects.nil)

/-- `ButtonEventHandler::handle_teach_repeat`. -/
def handle_teach_repeat (cfg : HandlerConfig) (s : HandlerState) :
    HandlerState × Effects :=
  if s.is_teaching then (s, Effects.nil)
  else if s.is_replaying then (s, Effects.nil)
  else
    match cfg.controller_callback with
    | some cb =>
        if cb ControllerCommand.START_REPLAY s.current_trajectory_name then
          ({ s with is_replaying := true },
            ⟨[(ControllerCommand.START_REPLAY, s.current_trajectory_name)], []⟩)
        else
          (s, ⟨[(ControllerCommand.START_REPLAY, s.current_trajectory_name)], []⟩)
    | none => (s, Effects.nil)

/-- `ButtonEventHandler::on_button_event`: records `last_interface_`, then
    dispatches on the status (the `default` branch only logs). -/
def on_button_event (cfg : HandlerConfig) (time_t : Nat) (s : HandlerState)
    (interface : String) (status : ButtonStatus) : HandlerState × Effects :=
  let s0 := { s with last_interface := interface }
  match status with
  | ButtonStatus.ENTRY_TEACH => handle_entry_teach cfg time_t s0
  | ButtonStatus.EXIT_TEACH => handle_exit_teach cfg s0
  | ButtonStatus.TEACH_REPEAT => handle_teach_repeat cfg s0
  | ButtonStatus.NONE => (s0, Effects.nil)

/-- `ButtonEventHandler::notify_replay_complete`. -/
def notify_replay_complete (cfg : HandlerConfig) (s : HandlerState)
    (interface : String) : HandlerState × Effects :=
  if s.is_replaying then
    let s1 := { s with is_replaying := false }
    if cfg.has_replay_complete_callback then
      (s1, ⟨[], [interface]⟩)
    else
      (s1, Effects.nil)
  else (s, Effects.nil)

/-- One call to either public entry point, bundling the configuration in
    force at that moment (callbacks may be re-set between events, and an
    arbitrary per-call controller callback covers every possible sequence of
    success/failure results). -/
inductive HandlerCall
  | buttonEvent (cfg : HandlerConfig) (time_t : Nat) (interface : String) (status : ButtonStatus)
  | replayComplete (cfg : HandlerConfig) (interface : String)

def step (s : HandlerState) : HandlerCall → HandlerState × Effects
  | HandlerCall.buttonEvent cfg t i st => on_button_event cfg t s i st
  | HandlerCall.replayComplete cfg i => notify_replay_complete cfg s i

def run (s : HandlerState) : List HandlerCall → HandlerState
  | [] => s
  | c :: cs => run (step s c).1 cs

/-- The two mode flags are never simultaneously set: one step of either entry
    point preserves this. -/
theorem mutex_step (s : HandlerState) (c : HandlerCall)
    (h : (s.is_teaching && s.is_replaying) = false) :
    ((step s c).1.is_teaching && (step s c).1.is_replaying) = false := by
  cases c with
  | buttonEvent cfg t i st =>
      cases hst : s.is_teaching <;> cases hsr : s.is_replaying <;>
        cases st <;>
        cases hcb : cfg.controller_callback <;>
        simp_all [step, on_button_event, handle_entry_teach, handle_exit_teach,
          handle_teach_repeat, Effects.nil] <;>
        split <;> simp_all
  | replayComplete cfg i =>
      cases hsr : s.is_replaying <;>
        simp_all [step, notify_replay_complete, Effects.nil] <;>
        split <;> simp_all

theorem mutex_run (s : HandlerState) (calls : List HandlerCall)
    (h : (s.is_teaching && s.is_replaying) = false) :
    ((run s calls).is_teaching && (run s calls).is_replaying) = false := by
  induction calls generalizing s with
  | nil => exact h
  | cons c cs ih => exact ih _ (mutex_step s c h)

/-- C1: for every sequence of calls to `on_button_event` and
    `notify_replay_complete`, with arbitrary controller-callback results,
    `is_teaching` and `is_replaying` are never both true, starting from the
    initial state (teaching:false, replaying:false). -/
theorem C1_teaching_replaying_mutually_exclusive (calls : List HandlerCall) :
    ¬((run initState calls).is_teaching = true ∧
      (run initState calls).is_replaying = true) := by
  have h := mutex_run initState calls rfl
  intro hc
  rw [hc.1, hc.2] at h
  exact Bool.noConfusion h

/-- C2 counterexample: with a controller callback that returns false, handling
    ENTRY_TEACH from the initial (idle) state still changes
    `current_trajectory_name` — the fresh name is assigned before the
    callback is invoked — so the handler state is not fully restored. -/
theorem C2_counterexample :
    ¬((on_button_event ⟨some (fun _ _ => false), true⟩ 5 initState "can0"
        ButtonStatus.ENTRY_TEACH).1.current_trajectory_name
      = initState.current_trajectory_name) := by
  decide

/-- C2 amended: when the controller callback returns false, `is_teaching` and
    `is_replaying` are unchanged by `on_button_event`; `current_trajectory_name`
    is unchanged as well except for an ENTRY_TEACH handled from idle, where it
    has already been overwritten with the freshly generated name before the
    failed START_RECORD request. -/
theorem C2_state_on_callback_failure (cfg : HandlerConfig)
    (cb : ControllerCommand → String → Bool)
    (hcfg : cfg.controller_callback = some cb) (hcb : ∀ c n, cb c n = false)
    (t : Nat) (s : HandlerState) (i : String) (status : ButtonStatus) :
    (on_button_event cfg t s i status).1.is_teaching = s.is_teaching ∧
    (on_button_event cfg t s i status).1.is_replaying = s.is_replaying ∧
    ((on_button_event cfg t s i status).1.current_trajectory_name
        = s.current_trajectory_name ∨
      (status = ButtonStatus.ENTRY_TEACH ∧
        (on_button_event cfg t s i status).1.current_trajectory_name
          = generate_trajectory_name t)) := by
  cases status <;> cases hst : s.is_teaching <;> cases hsr : s.is_replaying <;>
    simp_all [on_button_event, handle_entry_teach, handle_exit_teach,
      handle_teach_repeat, Effects.nil]

theorem C2_state_on_callback_failure_witness :
    (on_button_event ⟨some (fun _ _ => false), true⟩ 5 initState "can0"
        ButtonStatus.ENTRY_TEACH).1.is_teaching = initState.is_teaching ∧
    (on_button_event ⟨some (fun _ _ => false), true⟩ 5 initState "can0"
        ButtonStatus.ENTRY_TEACH).1.is_replaying = initState.is_replaying ∧
    ((on_button_event ⟨some (fun _ _ => false), true⟩ 5 initState "can0"
        ButtonStatus.ENTRY_TEACH).1.current_trajectory_name
        = initState.current_trajectory_name ∨
      (ButtonStatus.ENTRY_TEACH = ButtonStatus.ENTRY_TEACH ∧
        (on_button_event ⟨some (fun _ _ => false), true⟩ 5 initState "can0"
          ButtonStatus.ENTRY_TEACH).1.current_trajectory_name
          = generate_trajectory_name 5)) :=
  C2_state_on_callback_failure ⟨some (fun _ _ => false), true⟩ (fun _ _ => false)
    rfl (fun _ _ => rfl) 5 initState "can0" ButtonStatus.ENTRY_TEACH

/-- C3 counterexample: with no replay-complete callback registered, completing
    a replay emits no outbound completion signal, not exactly one. -/
theorem C3_counterexample :
    ¬((notify_replay_complete ⟨none, false⟩
        ⟨false, true, "t1", "can0"⟩ "can0").2.replay_complete_calls.length = 1) := by
  decide

/-- C3 amended: calling `notify_replay_complete` while `is_replaying` is true
    clears `is_replaying`, makes no controller request, and — provided the
    replay-complete callback is registered — triggers exactly one outbound
    completion signal for that interface; with no callback registered the flag
    is still cleared but no signal is emitted. -/
theorem C3_replay_complete_signal (cfg : HandlerConfig) (s : HandlerState)
    (i : String) (h : s.is_replaying = true) :
    (notify_replay_complete cfg s i).1.is_replaying = false ∧
    (cfg.has_replay_complete_callback = true →
      (notify_replay_complete cfg s i).2.replay_complete_calls = [i]) ∧
    (cfg.has_replay_complete_callback = false →
      (notify_replay_complete cfg s i).2.replay_complete_calls = []) ∧
    (notify_replay_complete cfg s i).2.controller_calls = [] := by
  cases hrc : cfg.has_replay_complete_callback <;>
    simp_all [notify_replay_complete, Effects.nil]

theorem C3_replay_complete_signal_witness :
    (notify_replay_complete ⟨none, true⟩
        ⟨false, true, "t1", "can0"⟩ "can0").1.is_replaying = false ∧
    ((⟨none, true⟩ : HandlerConfig).has_replay_complete_callback = true →
      (notify_replay_complete ⟨none, true⟩
        ⟨false, true, "t1", "can0"⟩ "can0").2.replay_complete_calls = ["can0"]) ∧
    ((⟨none, true⟩ : HandlerConfig).has_replay_complete_callback = false →
      (notify_replay_complete ⟨none, true⟩
        ⟨false, true, "t1", "can0"⟩ "can0").2.replay_complete_calls = []) ∧
    (notify_replay_complete ⟨none, true⟩
        ⟨false, true, "t1", "can0"⟩ "can0").2.controller_calls = [] :=
  C3_replay_complete_signal ⟨none, true⟩ ⟨false, true, "t1", "can0"⟩ "can0" rfl

/-- C4 counterexample: `on_button_event` assigns `last_interface_` before
    dispatching, so delivering ENTRY_TEACH from a new interface while
    replaying does change the handler's state (its `last_interface` field). -/
theorem C4_counterexample :
    ¬((on_button_event ⟨none, false⟩ 0 ⟨false, true, "t1", "can0"⟩ "can1"
        ButtonStatus.ENTRY_TEACH).1 = (⟨false, true, "t1", "can0"⟩ : HandlerState)) := by
  decide

/-- C4 amended: while `is_replaying` is true, ENTRY_TEACH never changes
    `is_teaching`, `is_replaying` or `current_trajectory_name`, never invokes
    the controller-switch callback (and emits nothing at all); `last_interface`
    is still set to the event's interface, as for every event. -/
theorem C4_entry_teach_while_replaying (cfg : HandlerConfig) (t : Nat)
    (s : HandlerState) (i : String) (h : s.is_replaying = true) :
    (on_button_event cfg t s i ButtonStatus.ENTRY_TEACH).1.is_teaching
        = s.is_teaching ∧
    (on_button_event cfg t s i ButtonStatus.ENTRY_TEACH).1.is_replaying
        = s.is_replaying ∧
    (on_button_event cfg t s i ButtonStatus.ENTRY_TEACH).1.current_trajectory_name
        = s.current_trajectory_name ∧
    (on_button_event cfg t s i ButtonStatus.ENTRY_TEACH).1.last_interface = i ∧
    (on_button_event cfg t s i ButtonStatus.ENTRY_TEACH).2 = Effects.nil := by
  cases hst : s.is_teaching <;>
    simp_all [on_button_event, handle_entry_teach, Effects.nil]

theorem C4_entry_teach_while_replaying_witness :
    (on_button_event ⟨none, false⟩ 0 ⟨false, true, "t1", "can0"⟩ "can1"
        ButtonStatus.ENTRY_TEACH).1.is_teaching
        = (⟨false, true, "t1", "can0"⟩ : HandlerState).is_teaching ∧
    (on_button_event ⟨none, false⟩ 0 ⟨false, true, "t1", "can0"⟩ "can1"
        ButtonStatus.ENTRY_TEACH).1.is_replaying
        = (⟨false, true, "t1", "can0"⟩ : HandlerState).is_replaying ∧
    (on_button_event ⟨none, false⟩ 0 ⟨false, true, "t1", "can0"⟩ "can1"
        ButtonStatus.ENTRY_TEACH).1.current_trajectory_name
        = (⟨false, true, "t1", "can0"⟩ : HandlerState).current_trajectory_name ∧
    (on_button_event ⟨none, false⟩ 0 ⟨false, true, "t1", "can0"⟩ "can1"
        ButtonStatus.ENTRY_TEACH).1.last_interface = "can1" ∧
    (on_button_event ⟨none, false⟩ 0 ⟨false, true, "t1", "can0"⟩ "can1"
        ButtonStatus.ENTRY_TEACH).2 = Effects.nil :=
  C4_entry_teach_while_replaying ⟨none, false⟩ 0 ⟨false, true, "t1", "can0"⟩ "can1" rfl

/-- C5 counterexample: delivering TEACH_REPEAT from a new interface while
    teaching does change the handler's state (its `last_interface` field),
    because `on_button_event` records the interface before dispatching. -/
theorem C5_counterexample :
    ¬((on_button_event ⟨none, false⟩ 0 ⟨true, false, "t1", "can0"⟩ "can1"
        ButtonStatus.TEACH_REPEAT).1 = (⟨true, false, "t1", "can0"⟩ : HandlerState)) := by
  decide

/-- C5 amended: while `is_teaching` is true, TEACH_REPEAT never changes
    `is_teaching`, `is_replaying` or `current_trajectory_name`, never invokes
    the controller-switch callback (and emits nothing at all); `last_interface`
    is still set to the event's interface, as for every event. -/
theorem C5_teach_repeat_while_teaching (cfg : HandlerConfig) (t : Nat)
    (s : HandlerState) (i : String) (h : s.is_teaching = true) :
    (on_button_event cfg t s i ButtonStatus.TEACH_REPEAT).1.is_teaching
        = s.is_teaching ∧
    (on_button_event cfg t s i ButtonStatus.TEACH_REPEAT).1.is_replaying
        = s.is_replaying ∧
    (on_button_event cfg t s i ButtonStatus.TEACH_REPEAT).1.current_trajectory_name
        = s.current_trajectory_name ∧
    (on_button_event cfg t s i ButtonStatus.TEACH_REPEAT).1.last_interface = i ∧
    (on_button_event cfg t s i ButtonStatus.TEACH_REPEAT).2 = Effects.nil := by
  simp_all [on_button_event, handle_teach_repeat, Effects.nil]

theorem C5_teach_repeat_while_teaching_witness :
    (on_button_event ⟨none, false⟩ 0 ⟨true, false, "t1", "can0"⟩ "can1"
        ButtonStatus.TEACH_REPEAT).1.is_teaching
        = (⟨true, false, "t1", "can0"⟩ : HandlerState).is_teaching ∧
    (on_button_event ⟨none, false⟩ 0 ⟨true, false, "t1", "can0"⟩ "can1"
        ButtonStatus.TEACH_REPEAT).1.is_replaying
        = (⟨true, false, "t1", "can0"⟩ : HandlerState).is_replaying ∧
    (on_button_event ⟨none, false⟩ 0 ⟨true, false, "t1", "can0"⟩ "can1"
        ButtonStatus.TEACH_REPEAT).1.current_trajectory_name
        = (⟨true, false, "t1", "can0"⟩ : HandlerState).current_trajectory_name ∧
    (on_button_event ⟨none, false⟩ 0 ⟨true, false, "t1", "can0"⟩ "can1"
        ButtonStatus.TEACH_REPEAT).1.last_interface = "can1" ∧
    (on_button_event ⟨none, false⟩ 0 ⟨true, false, "t1", "can0"⟩ "can1"
        ButtonStatus.TEACH_REPEAT).2 = Effects.nil :=
  C5_teach_repeat_while_teaching ⟨none, false⟩ 0 ⟨true, false, "t1", "can0"⟩ "can1" rfl

theorem generate_trajectory_name_length (t : Nat) :
    (generate_trajectory_name t).length = 12 + (toString t).length := by
  have h12 : ("button_traj_" : String).length = 12 := by decide
  simp [generate_trajectory_name, String.length_append, h12]

theorem generate_trajectory_name_ne_empty (t : Nat) :
    generate_trajectory_name t ≠ "" := by
  intro h
  have hlen := congrArg String.length h
  rw [generate_trajectory_name_length] at hlen
  simp at hlen

/-- C6: an ENTRY_TEACH handled from idle whose START_RECORD request succeeds
    sets `is_teaching` and stores the freshly generated, non-empty trajectory
    name (derived from the current wall-clock value). -/
theorem C6_entry_teach_success (cfg : HandlerConfig)
    (cb : ControllerCommand → String → Bool) (t : Nat) (s : HandlerState)
    (i : String) (hcfg : cfg.controller_callback = some cb)
    (ht : s.is_teaching = false) (hr : s.is_replaying = false)
    (hok : cb ControllerCommand.START_RECORD (generate_trajectory_name t) = true) :
    (on_button_event cfg t s i ButtonStatus.ENTRY_TEACH).1.is_teaching = true ∧
    (on_button_event cfg t s i ButtonStatus.ENTRY_TEACH).1.current_trajectory_name
        = generate_trajectory_name t ∧
    generate_trajectory_name t ≠ "" := by
  refine ⟨?_, ?_, generate_trajectory_name_ne_empty t⟩ <;>
    simp_all [on_button_event, handle_entry_teach]

theorem C6_entry_teach_success_witness :
    (on_button_event ⟨some (fun _ _ => true), true⟩ 5 initState "can0"
        ButtonStatus.ENTRY_TEACH).1.is_teaching = true ∧
    (on_button_event ⟨some (fun _ _ => true), true⟩ 5 initState "can0"
        ButtonStatus.ENTRY_TEACH).1.current_trajectory_name
        = generate_trajectory_name 5 ∧
    generate_trajectory_name 5 ≠ "" :=
  C6_entry_teach_success ⟨some (fun _ _ => true), true⟩ (fun _ _ => true) 5
    initState "can0" rfl rfl rfl rfl

/-- C7: a `notify_replay_complete` call while not replaying invokes no callback
    and changes no state at all, and iterating such spurious calls any number
    of times is a no-op. -/
theorem C7_notify_not_replaying_noop (cfg : HandlerConfig) (s : HandlerState)
    (i : String) (n : Nat) (h : s.is_replaying = false) :
    notify_replay_complete cfg s i = (s, Effects.nil) ∧
    (fun st => (notify_replay_complete cfg st i).1)^[n] s = s := by
  have hone : notify_replay_complete cfg s i = (s, Effects.nil) := by
    simp [notify_replay_complete, h]
  refine ⟨hone, Function.iterate_fixed ?_ n⟩
  simp [hone]

theorem C7_notify_not_replaying_noop_witness :
    notify_replay_complete ⟨none, true⟩ initState "can0" = (initState, Effects.nil) ∧
    (fun st => (notify_replay_complete (⟨none, true⟩ : HandlerConfig) st "can0").1)^[3]
      initState = initState :=
  C7_notify_not_replaying_noop ⟨none, true⟩ initState "can0" 3 rfl

/-- `teachingThroughout s L` holds when, starting from `s`, every state reached
    while consuming the calls of `L` still has `is_teaching` set: the teaching
    session begun before `L` is never exited during `L`. -/
def teachingThroughout (s : HandlerState) : List HandlerCall → Prop
  | [] => True
  | c :: cs => (step s c).1.is_teaching = true ∧ teachingThroughout (step s c).1 cs

/-- While a teaching session stays active, no single call changes the stored
    trajectory name. -/
theorem name_stable_step (s : HandlerState) (c : HandlerCall)
    (h : s.is_teaching = true) (h2 : (step s c).1.is_teaching = true) :
    (step s c).1.current_trajectory_name = s.current_trajectory_name := by
  cases c with
  | buttonEvent cfg t i st =>
      cases st <;> cases hcb : cfg.controller_callback <;>
        simp_all [step, on_button_event, handle_entry_teach, handle_exit_teach,
          handle_teach_repeat, Effects.nil] <;>
        split at h2 <;> simp_all
  | replayComplete cfg i =>
      cases hsr : s.is_replaying <;>
        simp_all [step, notify_replay_complete, Effects.nil] <;>
        split <;> simp_all

theorem name_stable_run (s : HandlerState) (L : List HandlerCall)
    (h : s.is_teaching = true) (hthr : teachingThroughout s L) :
    (run s L).current_trajectory_name = s.current_trajectory_name ∧
    (run s L).is_teaching = true := by
  induction L generalizing s with
  | nil => exact ⟨rfl, h⟩
  | cons c cs ih =>
      obtain ⟨h1, hrest⟩ := hthr
      obtain ⟨hn, ht⟩ := ih (step s c).1 h1 hrest
      exact ⟨hn.trans (name_stable_step s c h h1), ht⟩

/-- C8: from an idle state, a successful ENTRY_TEACH records the freshly
    generated name via exactly one START_RECORD request; after any sequence of
    further calls during which teaching stays active, a successful EXIT_TEACH
    makes exactly one STOP_RECORD request carrying that same trajectory id and
    clears `is_teaching`. -/
theorem C8_exit_teach_stop_record (s0 s1 s2 s3 : HandlerState) (e1 e3 : Effects)
    (cfg1 cfg2 : HandlerConfig) (cb1 cb2 : ControllerCommand → String → Bool)
    (t t2 : Nat) (i1 i2 : String) (L : List HandlerCall)
    (h0t : s0.is_teaching = false) (h0r : s0.is_replaying = false)
    (hc1 : cfg1.controller_callback = some cb1)
    (hok1 : cb1 ControllerCommand.START_RECORD (generate_trajectory_name t) = true)
    (hentry : on_button_event cfg1 t s0 i1 ButtonStatus.ENTRY_TEACH = (s1, e1))
    (hthr : teachingThroughout s1 L)
    (hrun : run s1 L = s2)
    (hc2 : cfg2.controller_callback = some cb2)
    (hok2 : cb2 ControllerCommand.STOP_RECORD s2.current_trajectory_name = true)
    (hexit : on_button_event cfg2 t2 s2 i2 ButtonStatus.EXIT_TEACH = (s3, e3)) :
    e1.controller_calls = [(ControllerCommand.START_RECORD, generate_trajectory_name t)] ∧
    e3.controller_calls = [(ControllerCommand.STOP_RECORD, generate_trajectory_name t)] ∧
    s3.is_teaching = false := by
  rw [on_button_event] at hentry
  simp only [handle_entry_teach, h0t, h0r, hc1, hok1, if_true, if_false,
    Bool.false_eq_true, Prod.mk.injEq] at hentry
  obtain ⟨hs1, he1⟩ := hentry
  have hs1t : s1.is_teaching = true := by rw [← hs1]
  have hs1n : s1.current_trajectory_name = generate_trajectory_name t := by
    rw [← hs1]
  obtain ⟨hs2n, hs2t⟩ := name_stable_run s1 L hs1t hthr
  rw [hrun] at hs2n hs2t
  rw [on_button_event] at hexit
  simp only [handle_exit_teach, hs2t, hc2, hok2, Bool.not_true, if_true, if_false,
    Bool.false_eq_true, Prod.mk.injEq] at hexit
  obtain ⟨hs3, he3⟩ := hexit
  refine ⟨?_, ?_, ?_⟩
  · rw [← he1]
  · rw [← he3, hs2n, hs1n]
  · rw [← hs3]

theorem C8_exit_teach_stop_record_witness :
    ((⟨[(ControllerCommand.START_RECORD, generate_trajectory_name 7)], []⟩ : Effects).controller_calls
        = [(ControllerCommand.START_RECORD, generate_trajectory_name 7)]) ∧
    ((⟨[(ControllerCommand.STOP_RECORD, generate_trajectory_name 7)], []⟩ : Effects).controller_calls
        = [(ControllerCommand.STOP_RECORD, generate_trajectory_name 7)]) ∧
    (({ is_teaching := false, is_replaying := false,
        current_trajectory_name := generate_trajectory_name 7,
        last_interface := "can0" } : HandlerState).is_teaching = false) :=
  C8_exit_teach_stop_record initState
    { is_teaching := true, is_replaying := false,
      current_trajectory_name := generate_trajectory_name 7, last_interface := "can0" }
    { is_teaching := true, is_replaying := false,
      current_trajectory_name := generate_trajectory_name 7, last_interface := "can0" }
    { is_teaching := false, is_replaying := false,
      current_trajectory_name := generate_trajectory_name 7, last_interface := "can0" }
    ⟨[(ControllerCommand.START_RECORD, generate_trajectory_name 7)], []⟩
    ⟨[(ControllerCommand.STOP_RECORD, generate_trajectory_name 7)], []⟩
    ⟨some (fun _ _ => true), true⟩ ⟨some (fun _ _ => true), true⟩
    (fun _ _ => true) (fun _ _ => true) 7 9 "can0" "can0" []
    rfl rfl rfl rfl rfl trivial rfl rfl rfl rfl

/-- C9: on a freshly constructed handler (which has never entered teaching, so
    the stored trajectory name is still empty), TEACH_REPEAT with a controller
    callback registered requests START_REPLAY with the empty string, and on
    success the handler is replaying with the trajectory name still empty. -/
theorem C9_replay_with_empty_name (cfg : HandlerConfig)
    (cb : ControllerCommand → String → Bool) (t : Nat) (i : String)
    (hcfg : cfg.controller_callback = some cb) :
    (on_button_event cfg t initState i ButtonStatus.TEACH_REPEAT).2.controller_calls
        = [(ControllerCommand.START_REPLAY, "")] ∧
    (cb ControllerCommand.START_REPLAY "" = true →
      (on_button_event cfg t initState i ButtonStatus.TEACH_REPEAT).1.is_replaying = true ∧
      (on_button_event cfg t initState i
          ButtonStatus.TEACH_REPEAT).1.current_trajectory_name = "") := by
  cases hres : cb ControllerCommand.START_REPLAY "" <;>
    simp_all [on_button_event, handle_teach_repeat, initState, Effects.nil]

theorem C9_replay_with_empty_name_witness :
    (on_button_event ⟨some (fun _ _ => true), true⟩ 0 initState "can0"
        ButtonStatus.TEACH_REPEAT).2.controller_calls
        = [(ControllerCommand.START_REPLAY, "")] ∧
    ((fun _ _ => true : ControllerCommand → String → Bool)
        ControllerCommand.START_REPLAY "" = true →
      (on_button_event ⟨some (fun _ _ => true), true⟩ 0 initState "can0"
          ButtonStatus.TEACH_REPEAT).1.is_replaying = true ∧
      (on_button_event ⟨some (fun _ _ => true), true⟩ 0 initState "can0"
          ButtonStatus.TEACH_REPEAT).1.current_trajectory_name = "") :=
  C9_replay_with_empty_name ⟨some (fun _ _ => true), true⟩ (fun _ _ => true) 0 "can0" rfl

/-- C10: every `on_button_event` call records the given interface in
    `last_interface`, whatever the status and whether or not the event is
    acted on. -/
theorem C10_last_interface_always_set (cfg : HandlerConfig) (t : Nat)
    (s : HandlerState) (i : String) (status : ButtonStatus) :
    (on_button_event cfg t s i status).1.last_interface = i := by
  cases status <;> cases hst : s.is_teaching <;> cases hsr : s.is_replaying <;>
    cases hcb : cfg.controller_callback <;>
    simp_all [on_button_event, handle_entry_teach, handle_exit_teach,
      handle_teach_repeat, Effects.nil] <;>
    split <;> simp_all

end HardwareDriver
